import Mathlib

/-!
Shallow embedding of the model-routing gateway.

The core under verification is the routing/dispatch module: four backend
adapters (general text, coding text, image, video), a routing step that asks
a text model for the name of the best backend, and a dispatcher that selects
the adapter by exact name match and falls back to the default text adapter on
any failure.  External network calls are modelled by explicit outcome oracles
passed in an environment: each call site receives the outcome the external
world would produce for it.  A thrown JavaScript error is modelled as
Except.error carrying the error message string.
-/

structure ChatRequest where
  prompt : String
  deriving Repr, DecidableEq

structure ChatResponse where
  response : Option String
  model : String
  deriving Repr, DecidableEq

structure ImageRequest where
  prompt : String
  negative_prompt : Option String := none
  width : Option Nat := none
  height : Option Nat := none
  deriving Repr, DecidableEq

structure ImageResponse where
  imageUrl : Option String
  model : String
  deriving Repr, DecidableEq

structure VideoRequest where
  prompt : String
  negative_prompt : Option String := none
  width : Option Nat := none
  height : Option Nat := none
  duration : Option Nat := none
  deriving Repr, DecidableEq

structure VideoResponse where
  videoUrl : Option String
  model : String
  deriving Repr, DecidableEq

structure ModelDescriptor where
  name : String
  description : String
  deriving Repr, DecidableEq

/-- The static backend catalog, in source order. -/
def listOfModels : List ModelDescriptor :=
  [ { name := "gemini-2.0-flash",
      description := "Performs best for fact checking and general answers. It is not preferred for any coding related task" },
    { name := "deepseek-chat",
      description := "Works best for tasks related to general coding but may not perform well for tasks requiring deeper knowledge or complex tasks" },
    { name := "Fal",
      description := "Works best for tasks related to image generation and text-to-image tasks" },
    { name := "LumaAI",
      description := "Works best for tasks related to video generation and text-to-video tasks" } ]

/-- JavaScript String.prototype.trim: drop whitespace from both ends. -/
def jsTrim (s : String) : String :=
  String.mk (((s.data.dropWhile Char.isWhitespace).reverse.dropWhile Char.isWhitespace).reverse)

/-- JavaScript a or-else b on strings: the empty string is falsy. -/
def jsOrS : Option String → String → String
  | some s, d => if s = "" then d else s
  | none, d => d

/-- JavaScript a or-else b on numbers: zero is falsy. -/
def jsOrN : Option Nat → Nat → Nat
  | some n, d => if n = 0 then d else n
  | none, d => d

/-- JavaScript a or-else b where both sides may be absent. -/
def jsOrOpt : Option String → Option String → Option String
  | some s, b => if s = "" then b else some s
  | none, b => b

/-- JavaScript fetch Response.ok: status in the 200 to 299 range. -/
def fetchOk (status : Nat) : Bool :=
  decide (200 ≤ status ∧ status < 300)

/-- The error message template for a non-success HTTP status. -/
def apiErrorMessage (status : Nat) (body : String) : String :=
  "API Error: " ++ toString status ++ " - " ++ body

/-- choices at index 0 of the chat-completion JSON, message fields inlined. -/
structure DeepseekChoice where
  content : Option String
  reasoning : Option String
  deriving Repr, DecidableEq

/-- Outcome of the fetch inside askWithDeepSeek: HTTP status, body text and
the parse of the body as JSON (which itself can fail). -/
structure DeepseekFetch where
  status : Nat
  body : String
  json : Except String (Option DeepseekChoice)
  deriving Repr

/-- Result object of the fal subscribe call: the images field may be absent. -/
structure FalResult where
  images : Option (List String)
  deriving Repr, DecidableEq

/-- The parsed JSON of a successful eachlabs response: video.url if present. -/
structure VideoJson where
  videoUrl : Option String
  deriving Repr, DecidableEq

/-- Outcome of the fetch inside generateVideo. -/
structure VideoFetch where
  status : Nat
  body : String
  json : Except String VideoJson
  deriving Repr

/-- askWithGemini: builds the client from the credential (absent becomes the
empty string, with no check) and performs one upstream content call whose
outcome is the oracle argument. -/
def askWithGemini (geminiKey : Option String) (upstream : Except String String)
    (chatRequest : ChatRequest) : Except String ChatResponse :=
  let _apiKey := jsOrS geminiKey ""
  match upstream with
  | Except.error e => Except.error e
  | Except.ok answer =>
    Except.ok { response := some answer, model := "Gemini 2.0 Flash" }

/-- responseContent of askWithDeepSeek: content or-else reasoning of the first
choice, where absent levels yield absence. -/
def deepseekContent : Option DeepseekChoice → Option String
  | none => none
  | some c => jsOrOpt c.content c.reasoning

/-- askWithDeepSeek: checks the credential, performs the fetch, checks the
status, parses the JSON body and extracts the content. -/
def askWithDeepSeek (deepseekKey : Option String)
    (upstream : Except String DeepseekFetch)
    (chatRequest : ChatRequest) : Except String ChatResponse :=
  let apiKey := jsOrS deepseekKey ""
  if apiKey = "" then Except.error "DeepSeek API key is missing!"
  else
    match upstream with
    | Except.error e => Except.error e
    | Except.ok resp =>
      if fetchOk resp.status then
        match resp.json with
        | Except.error e => Except.error e
        | Except.ok choice =>
          Except.ok { response := deepseekContent choice, model := "deepseek-chat" }
      else Except.error (apiErrorMessage resp.status resp.body)

/-- The input object sent to the fal subscribe call. -/
structure FalInput where
  prompt : String
  negative_prompt : String
  width : Nat
  height : Nat
  deriving Repr, DecidableEq

/-- The payload generateImage sends upstream: defaults applied to the absent
or falsy optional fields of the image request. -/
def falInputOf (imageRequest : ImageRequest) : FalInput :=
  { prompt := imageRequest.prompt,
    negative_prompt :=
      jsOrS imageRequest.negative_prompt "low quality, blurry, distorted, deformed",
    width := jsOrN imageRequest.width 1024,
    height := jsOrN imageRequest.height 1024 }

/-- The body of generateImage before its surrounding catch: calls the fal
upstream with the defaulted payload and requires a non-empty images array. -/
def generateImageInner (falUpstream : FalInput → Except String FalResult)
    (imageRequest : ImageRequest) : Except String ImageResponse :=
  match falUpstream (falInputOf imageRequest) with
  | Except.error e => Except.error e
  | Except.ok result =>
    match result.images with
    | none => Except.error "No images were generated"
    | some [] => Except.error "No images were generated"
    | some (url :: _) =>
      Except.ok { imageUrl := some url, model := "Stable Diffusion XL" }

/-- generateImage: the whole body is wrapped in a catch that converts any
error into the null-image result. -/
def generateImage (falUpstream : FalInput → Except String FalResult)
    (imageRequest : ImageRequest) : ImageResponse :=
  match generateImageInner falUpstream imageRequest with
  | Except.ok res => res
  | Except.error _ => { imageUrl := none, model := "Stable Diffusion XL" }

/-- The JSON body generateVideo sends upstream: defaults applied to the absent
or falsy optional fields of the video request. -/
structure VideoBody where
  prompt : String
  negative_prompt : String
  width : Nat
  height : Nat
  duration : Nat
  deriving Repr, DecidableEq

def videoBodyOf (videoRequest : VideoRequest) : VideoBody :=
  { prompt := videoRequest.prompt,
    negative_prompt := jsOrS videoRequest.negative_prompt "low quality, blurry, distorted",
    width := jsOrN videoRequest.width 1024,
    height := jsOrN videoRequest.height 1024,
    duration := jsOrN videoRequest.duration 5 }

def videoMissingKeyMessage : String :=
  "Eachlabs API key is missing! Please check your .env file."

def videoAuthMessage : String :=
  "Unauthorized: Invalid API key. Check your Eachlabs account."

def videoNoUrlMessage : String :=
  "API response did not contain a video URL."

/-- The body of generateVideo before its surrounding catch: credential check,
fetch, 401 check, status check, JSON parse, URL extraction. -/
def generateVideoInner (eachlabsKey : Option String)
    (videoUpstream : VideoBody → Except String VideoFetch)
    (videoRequest : VideoRequest) : Except String VideoResponse :=
  let apiKey := jsOrS (eachlabsKey.map jsTrim) ""
  if apiKey = "" then Except.error videoMissingKeyMessage
  else
    match videoUpstream (videoBodyOf videoRequest) with
    | Except.error e => Except.error e
    | Except.ok resp =>
      if resp.status = 401 then Except.error videoAuthMessage
      else if fetchOk resp.status then
        match resp.json with
        | Except.error e => Except.error e
        | Except.ok result =>
          match result.videoUrl with
          | none => Except.error videoNoUrlMessage
          | some url =>
            if url = "" then Except.error videoNoUrlMessage
            else Except.ok { videoUrl := some url, model := "eachlabs" }
      else Except.error (apiErrorMessage resp.status resp.body)

/-- generateVideo: the whole body is wrapped in a catch that converts any
error into the null-video result. -/
def generateVideo (eachlabsKey : Option String)
    (videoUpstream : VideoBody → Except String VideoFetch)
    (videoRequest : VideoRequest) : VideoResponse :=
  match generateVideoInner eachlabsKey videoUpstream videoRequest with
  | Except.ok res => res
  | Except.error _ => { videoUrl := none, model := "eachlabs" }

/-- The four adapters of the catalog, as invocation-trace labels. -/
inductive Adapter where
  | gemini
  | deepseek
  | image
  | video
  deriving Repr, DecidableEq

/-- The model identity each adapter stamps on its own results. -/
def adapterModelName : Adapter → String
  | Adapter.gemini => "Gemini 2.0 Flash"
  | Adapter.deepseek => "deepseek-chat"
  | Adapter.image => "Stable Diffusion XL"
  | Adapter.video => "eachlabs"

/-- The external world for one generateResponse run: credentials and one
outcome oracle per external call site. -/
structure Env where
  geminiKey : Option String
  deepseekKey : Option String
  eachlabsKey : Option String
  routing : Except String String
  geminiMain : Except String String
  geminiFallback : Except String String
  deepseek : Except String DeepseekFetch
  fal : FalInput → Except String FalResult
  video : VideoBody → Except String VideoFetch

def blankDescriptor : ModelDescriptor := { name := "", description := "" }

/-- The switch statement of generateResponse: the trimmed routing answer is
compared by strict equality against the catalog names in order; the default
case invokes askWithGemini.  The second component records which adapter the
switch invoked. -/
def dispatch (env : Env) (chatRequest : ChatRequest) (answer : String) :
    Except String ChatResponse × List Adapter :=
  if answer = (listOfModels.getD 0 blankDescriptor).name then
    (askWithGemini env.geminiKey env.geminiMain chatRequest, [Adapter.gemini])
  else if answer = (listOfModels.getD 1 blankDescriptor).name then
    (askWithDeepSeek env.deepseekKey env.deepseek chatRequest, [Adapter.deepseek])
  else if answer = (listOfModels.getD 2 blankDescriptor).name then
    let imageResponse := generateImage env.fal { prompt := chatRequest.prompt }
    (Except.ok { response := imageResponse.imageUrl, model := imageResponse.model },
     [Adapter.image])
  else if answer = (listOfModels.getD 3 blankDescriptor).name then
    let videoResponse := generateVideo env.eachlabsKey env.video { prompt := chatRequest.prompt }
    (Except.ok { response := videoResponse.videoUrl, model := videoResponse.model },
     [Adapter.video])
  else
    (askWithGemini env.geminiKey env.geminiMain chatRequest, [Adapter.gemini])

/-- generateResponse: the try block performs the routing call, trims its text
and dispatches on it; the catch converts any error from routing or from the
dispatched adapter into one direct askWithGemini call whose own outcome is
returned unguarded.  The second component is the adapter invocation trace. -/
def generateResponse (env : Env) (chatRequest : ChatRequest) :
    Except String ChatResponse × List Adapter :=
  match env.routing with
  | Except.error _ =>
    (askWithGemini env.geminiKey env.geminiFallback chatRequest, [Adapter.gemini])
  | Except.ok raw =>
    match dispatch env chatRequest (jsTrim raw) with
    | (Except.ok res, trace) => (Except.ok res, trace)
    | (Except.error _, trace) =>
      (askWithGemini env.geminiKey env.geminiFallback chatRequest,
       trace ++ [Adapter.gemini])

/-- JSON values, for the HTTP boundary of the chat route. -/
inductive Json where
  | null : Json
  | bool : Bool → Json
  | num : Int → Json
  | str : String → Json
  | arr : List Json → Json
  | obj : List (String × Json) → Json
  deriving Repr

def lookupField : List (String × Json) → String → Option Json
  | [], _ => none
  | (k, v) :: rest, key => if k = key then some v else lookupField rest key

def Json.getField : Json → String → Option Json
  | Json.obj fields, key => lookupField fields key
  | _, _ => none

/-- The zod schema of the chat route: an object whose prompt field is a
string; anything else fails validation. -/
def safeParseChat : Json → Option String
  | Json.obj fields =>
    match lookupField fields "prompt" with
    | some (Json.str s) => some s
    | _ => none
  | _ => none

/-- Serialization of a ChatResponse value. -/
def chatResponseJson (r : ChatResponse) : Json :=
  Json.obj
    [ ("response", match r.response with
                   | some s => Json.str s
                   | none => Json.null),
      ("model", Json.str r.model) ]

namespace ChatRoute

/-- The POST handler of the chat route: parse the request body, validate it
against the schema, run generateResponse, and wrap the outcome.  The success
reply body is the object with the single field message holding the core
result; validation failure replies 400 and a fatal core error replies 500. -/
def POST (env : Env) (reqJson : Except String Json) : Nat × Json :=
  match reqJson with
  | Except.error _ => (500, Json.obj [("message", Json.str "Internal server error")])
  | Except.ok body =>
    match safeParseChat body with
    | none => (400, Json.obj [("message", Json.str "Invalid Inputs!!")])
    | some prompt =>
      match (generateResponse env { prompt := prompt }).1 with
      | Except.ok response => (200, Json.obj [("message", chatResponseJson response)])
      | Except.error _ => (500, Json.obj [("message", Json.str "Internal server error")])

end ChatRoute

/-! ## Helper lemmas -/

theorem string_data_append (a b : String) : (a ++ b).data = a.data ++ b.data := by
  cases a
  cases b
  rfl

/-- Messages built by the non-success status template never coincide with the
dedicated 401 message: the two error kinds stay distinguishable. -/
theorem apiErrorMessage_ne_auth (status : Nat) (body : String) :
    apiErrorMessage status body ≠ videoAuthMessage := by
  intro h
  have h2 := congrArg String.data h
  unfold apiErrorMessage videoAuthMessage at h2
  rw [string_data_append, string_data_append, string_data_append] at h2
  have h3 : ("API Error: " : String).data = 'A' :: "PI Error: ".data := rfl
  have h4 : ("Unauthorized: Invalid API key. Check your Eachlabs account." : String).data
      = 'U' :: "nauthorized: Invalid API key. Check your Eachlabs account.".data := rfl
  rw [h3, h4] at h2
  simp only [List.cons_append, List.append_assoc] at h2
  exact absurd (List.cons.inj h2).1 (by decide)

theorem dispatch_case_gemini (env : Env) (req : ChatRequest) (answer : String)
    (h : answer = "gemini-2.0-flash") :
    dispatch env req answer =
      (askWithGemini env.geminiKey env.geminiMain req, [Adapter.gemini]) := by
  subst h
  rfl

theorem dispatch_case_deepseek (env : Env) (req : ChatRequest) (answer : String)
    (h : answer = "deepseek-chat") :
    dispatch env req answer =
      (askWithDeepSeek env.deepseekKey env.deepseek req, [Adapter.deepseek]) := by
  subst h
  rfl

theorem dispatch_case_image (env : Env) (req : ChatRequest) (answer : String)
    (h : answer = "Fal") :
    dispatch env req answer =
      (Except.ok { response := (generateImage env.fal { prompt := req.prompt }).imageUrl,
                   model := (generateImage env.fal { prompt := req.prompt }).model },
       [Adapter.image]) := by
  subst h
  rfl

theorem dispatch_case_video (env : Env) (req : ChatRequest) (answer : String)
    (h : answer = "LumaAI") :
    dispatch env req answer =
      (Except.ok { response := (generateVideo env.eachlabsKey env.video { prompt := req.prompt }).videoUrl,
                   model := (generateVideo env.eachlabsKey env.video { prompt := req.prompt }).model },
       [Adapter.video]) := by
  subst h
  rfl

theorem dispatch_case_default (env : Env) (req : ChatRequest) (answer : String)
    (h0 : answer ≠ "gemini-2.0-flash") (h1 : answer ≠ "deepseek-chat")
    (h2 : answer ≠ "Fal") (h3 : answer ≠ "LumaAI") :
    dispatch env req answer =
      (askWithGemini env.geminiKey env.geminiMain req, [Adapter.gemini]) := by
  have e0 : (listOfModels.getD 0 blankDescriptor).name = "gemini-2.0-flash" := rfl
  have e1 : (listOfModels.getD 1 blankDescriptor).name = "deepseek-chat" := rfl
  have e2 : (listOfModels.getD 2 blankDescriptor).name = "Fal" := rfl
  have e3 : (listOfModels.getD 3 blankDescriptor).name = "LumaAI" := rfl
  unfold dispatch
  rw [e0, e1, e2, e3, if_neg h0, if_neg h1, if_neg h2, if_neg h3]

theorem generateResponse_routing_error (env : Env) (req : ChatRequest) (e : String)
    (h : env.routing = Except.error e) :
    generateResponse env req =
      (askWithGemini env.geminiKey env.geminiFallback req, [Adapter.gemini]) := by
  unfold generateResponse
  rw [h]

theorem generateResponse_dispatch_ok (env : Env) (req : ChatRequest) (raw : String)
    (res : ChatResponse) (trace : List Adapter)
    (h : env.routing = Except.ok raw)
    (hd : dispatch env req (jsTrim raw) = (Except.ok res, trace)) :
    generateResponse env req = (Except.ok res, trace) := by
  have hstep : generateResponse env req =
      match dispatch env req (jsTrim raw) with
      | (Except.ok r, tr) => (Except.ok r, tr)
      | (Except.error _, tr) =>
        (askWithGemini env.geminiKey env.geminiFallback req, tr ++ [Adapter.gemini]) := by
    unfold generateResponse
    rw [h]
  rw [hstep, hd]

theorem generateResponse_dispatch_error (env : Env) (req : ChatRequest) (raw : String)
    (e : String) (trace : List Adapter)
    (h : env.routing = Except.ok raw)
    (hd : dispatch env req (jsTrim raw) = (Except.error e, trace)) :
    generateResponse env req =
      (askWithGemini env.geminiKey env.geminiFallback req, trace ++ [Adapter.gemini]) := by
  have hstep : generateResponse env req =
      match dispatch env req (jsTrim raw) with
      | (Except.ok r, tr) => (Except.ok r, tr)
      | (Except.error _, tr) =>
        (askWithGemini env.geminiKey env.geminiFallback req, tr ++ [Adapter.gemini]) := by
    unfold generateResponse
    rw [h]
  rw [hstep, hd]

theorem askWithGemini_ok_model (k : Option String) (u : Except String String)
    (req : ChatRequest) (r : ChatResponse)
    (h : askWithGemini k u req = Except.ok r) : r.model = "Gemini 2.0 Flash" := by
  unfold askWithGemini at h
  cases u with
  | error e => exact absurd h (by simp)
  | ok answer =>
    simp only [Except.ok.injEq] at h
    rw [← h]

theorem askWithDeepSeek_ok_model (k : Option String) (u : Except String DeepseekFetch)
    (req : ChatRequest) (r : ChatResponse)
    (h : askWithDeepSeek k u req = Except.ok r) : r.model = "deepseek-chat" := by
  unfold askWithDeepSeek at h
  by_cases hk : jsOrS k "" = ""
  · rw [if_pos hk] at h
    exact absurd h (by simp)
  · rw [if_neg hk] at h
    cases u with
    | error e => exact absurd h (by simp)
    | ok resp =>
      by_cases hok : fetchOk resp.status
      · simp only [hok, if_true] at h
        cases hj : resp.json with
        | error e => rw [hj] at h; exact absurd h (by simp)
        | ok choice =>
          rw [hj] at h
          simp only [Except.ok.injEq] at h
          rw [← h]
      · simp only [hok, if_false] at h
        exact absurd h (by simp)

theorem generateImageInner_ok_model (u : FalInput → Except String FalResult)
    (req : ImageRequest) (res : ImageResponse)
    (h : generateImageInner u req = Except.ok res) :
    res.model = "Stable Diffusion XL" := by
  unfold generateImageInner at h
  cases hu : u (falInputOf req) with
  | error e => simp [hu] at h
  | ok result =>
    simp only [hu] at h
    cases hi : result.images with
    | none => simp [hi] at h
    | some l =>
      simp only [hi] at h
      cases l with
      | nil => simp at h
      | cons url tl =>
        simp only [Except.ok.injEq] at h
        rw [← h]

theorem generateImage_model (u : FalInput → Except String FalResult) (req : ImageRequest) :
    (generateImage u req).model = "Stable Diffusion XL" := by
  unfold generateImage
  cases h : generateImageInner u req with
  | error e => rfl
  | ok res => exact generateImageInner_ok_model u req res h

theorem generateVideoInner_ok_model (k : Option String)
    (u : VideoBody → Except String VideoFetch) (req : VideoRequest) (res : VideoResponse)
    (h : generateVideoInner k u req = Except.ok res) :
    res.model = "eachlabs" := by
  unfold generateVideoInner at h
  by_cases hk : jsOrS (k.map jsTrim) "" = ""
  · rw [if_pos hk] at h
    simp at h
  · rw [if_neg hk] at h
    cases hu : u (videoBodyOf req) with
    | error e => simp [hu] at h
    | ok resp =>
      simp only [hu] at h
      by_cases h401 : resp.status = 401
      · rw [if_pos h401] at h
        simp at h
      · rw [if_neg h401] at h
        by_cases hok : fetchOk resp.status = true
        · rw [if_pos hok] at h
          cases hj : resp.json with
          | error e => simp [hj] at h
          | ok result =>
            simp only [hj] at h
            cases hv : result.videoUrl with
            | none => simp [hv] at h
            | some url =>
              simp only [hv] at h
              by_cases hu2 : url = ""
              · rw [if_pos hu2] at h
                simp at h
              · rw [if_neg hu2] at h
                simp only [Except.ok.injEq] at h
                rw [← h]
        · rw [if_neg hok] at h
          simp at h

theorem generateVideo_model (k : Option String) (u : VideoBody → Except String VideoFetch)
    (req : VideoRequest) : (generateVideo k u req).model = "eachlabs" := by
  unfold generateVideo
  cases h : generateVideoInner k u req with
  | error e => rfl
  | ok res => exact generateVideoInner_ok_model k u req res h

/-! ## Concrete environments used by the witnesses -/

def envImageW : Env :=
  { geminiKey := some "gk", deepseekKey := some "dk", eachlabsKey := some "ek",
    routing := Except.ok " Fal ",
    geminiMain := Except.ok "gresp",
    geminiFallback := Except.ok "fallback answer",
    deepseek := Except.ok
      { status := 200, body := "",
        json := Except.ok (some { content := some "dsresp", reasoning := none }) },
    fal := fun _ => Except.ok { images := some ["imgurl"] },
    video := fun _ => Except.ok
      { status := 200, body := "", json := Except.ok { videoUrl := some "vidurl" } } }

def envFallbackW : Env :=
  { envImageW with
    routing := Except.ok "deepseek-chat",
    deepseekKey := none }

def envRouteErrW : Env :=
  { envImageW with routing := Except.error "network down" }

def envChatW : Env :=
  { envImageW with routing := Except.ok "gemini-2.0-flash" }

/-! ## Claims -/

/-- Claim C1: when the routing call succeeds, an adapter other than the
default is dispatched exactly when the trimmed routing text equals the
cataloged backend name registered for it, compared by plain string equality;
the default text adapter is dispatched exactly for its own name or for a
non-matching string. -/
theorem c1_exact_name_selects_adapter (env : Env) (req : ChatRequest) (raw : String)
    (h : env.routing = Except.ok raw) :
    ((generateResponse env req).2.head? = some Adapter.deepseek ↔ jsTrim raw = "deepseek-chat")
  ∧ ((generateResponse env req).2.head? = some Adapter.image ↔ jsTrim raw = "Fal")
  ∧ ((generateResponse env req).2.head? = some Adapter.video ↔ jsTrim raw = "LumaAI")
  ∧ ((generateResponse env req).2.head? = some Adapter.gemini ↔
      (jsTrim raw = "gemini-2.0-flash" ∨
        (jsTrim raw ≠ "deepseek-chat" ∧ jsTrim raw ≠ "Fal" ∧ jsTrim raw ≠ "LumaAI"))) := by
  have hhead : (generateResponse env req).2.head? =
      (if jsTrim raw = "gemini-2.0-flash" then some Adapter.gemini
       else if jsTrim raw = "deepseek-chat" then some Adapter.deepseek
       else if jsTrim raw = "Fal" then some Adapter.image
       else if jsTrim raw = "LumaAI" then some Adapter.video
       else some Adapter.gemini) := by
    by_cases h0 : jsTrim raw = "gemini-2.0-flash"
    · rw [if_pos h0]
      cases hm : askWithGemini env.geminiKey env.geminiMain req with
      | ok r =>
        rw [generateResponse_dispatch_ok env req raw r [Adapter.gemini] h
          (by rw [dispatch_case_gemini env req _ h0, hm])]
        rfl
      | error e =>
        rw [generateResponse_dispatch_error env req raw e [Adapter.gemini] h
          (by rw [dispatch_case_gemini env req _ h0, hm])]
        rfl
    · rw [if_neg h0]
      by_cases h1 : jsTrim raw = "deepseek-chat"
      · rw [if_pos h1]
        cases hm : askWithDeepSeek env.deepseekKey env.deepseek req with
        | ok r =>
          rw [generateResponse_dispatch_ok env req raw r [Adapter.deepseek] h
            (by rw [dispatch_case_deepseek env req _ h1, hm])]
          rfl
        | error e =>
          rw [generateResponse_dispatch_error env req raw e [Adapter.deepseek] h
            (by rw [dispatch_case_deepseek env req _ h1, hm])]
          rfl
      · rw [if_neg h1]
        by_cases h2 : jsTrim raw = "Fal"
        · rw [if_pos h2]
          rw [generateResponse_dispatch_ok env req raw _ [Adapter.image] h
            (dispatch_case_image env req _ h2)]
          rfl
        · rw [if_neg h2]
          by_cases h3 : jsTrim raw = "LumaAI"
          · rw [if_pos h3]
            rw [generateResponse_dispatch_ok env req raw _ [Adapter.video] h
              (dispatch_case_video env req _ h3)]
            rfl
          · rw [if_neg h3]
            cases hm : askWithGemini env.geminiKey env.geminiMain req with
            | ok r =>
              rw [generateResponse_dispatch_ok env req raw r [Adapter.gemini] h
                (by rw [dispatch_case_default env req _ h0 h1 h2 h3, hm])]
              rfl
            | error e =>
              rw [generateResponse_dispatch_error env req raw e [Adapter.gemini] h
                (by rw [dispatch_case_default env req _ h0 h1 h2 h3, hm])]
              rfl
  rw [hhead]
  by_cases h0 : jsTrim raw = "gemini-2.0-flash" <;>
    by_cases h1 : jsTrim raw = "deepseek-chat" <;>
      by_cases h2 : jsTrim raw = "Fal" <;>
        by_cases h3 : jsTrim raw = "LumaAI" <;>
          simp_all

/-- Claim C1 witness: the trimmed routing answer Fal selects the image
adapter in a fully concrete run. -/
theorem c1_witness :
    (generateResponse envImageW { prompt := "draw a cat" }).2.head? = some Adapter.image :=
  (c1_exact_name_selects_adapter envImageW { prompt := "draw a cat" } " Fal " rfl).2.1.mpr rfl

/-- Claim C2: when routing succeeded and the dispatched adapter call raised an
error, generateResponse returns the outcome of exactly one direct
askWithGemini fallback call on the original request (the trace gains exactly
one trailing default-adapter invocation), and an error from that fallback
call is returned to the caller unguarded. -/
theorem c2_single_fallback (env : Env) (req : ChatRequest) (raw : String) (e : String)
    (h : env.routing = Except.ok raw)
    (hfail : (dispatch env req (jsTrim raw)).1 = Except.error e) :
    (generateResponse env req).1 = askWithGemini env.geminiKey env.geminiFallback req
  ∧ (generateResponse env req).2 = (dispatch env req (jsTrim raw)).2 ++ [Adapter.gemini]
  ∧ (∀ msg, askWithGemini env.geminiKey env.geminiFallback req = Except.error msg →
      (generateResponse env req).1 = Except.error msg) := by
  have hd : dispatch env req (jsTrim raw) =
      (Except.error e, (dispatch env req (jsTrim raw)).2) := Prod.ext hfail rfl
  have hrun := generateResponse_dispatch_error env req raw e
    (dispatch env req (jsTrim raw)).2 h hd
  refine ⟨?_, ?_, ?_⟩
  · rw [hrun]
  · rw [hrun]
  · intro msg hmsg
    rw [hrun]
    exact hmsg

/-- Claim C2 witness: a concrete run where the router chose deepseek-chat but
the DeepSeek credential is absent, so the adapter raises; the run returns the
fallback Gemini answer and the trace shows the single fallback step. -/
theorem c2_witness :
    (generateResponse envFallbackW { prompt := "fix my code" }).1 =
      askWithGemini envFallbackW.geminiKey envFallbackW.geminiFallback { prompt := "fix my code" }
  ∧ (generateResponse envFallbackW { prompt := "fix my code" }).2 =
      (dispatch envFallbackW { prompt := "fix my code" } (jsTrim "deepseek-chat")).2 ++ [Adapter.gemini] :=
  ⟨(c2_single_fallback envFallbackW { prompt := "fix my code" } "deepseek-chat"
      "DeepSeek API key is missing!" rfl rfl).1,
   (c2_single_fallback envFallbackW { prompt := "fix my code" } "deepseek-chat"
      "DeepSeek API key is missing!" rfl rfl).2.1⟩

/-- Claim C3: a routing failure never fails the request.  If the routing call
raised, generateResponse returns the fallback askWithGemini outcome directly;
if the routing call returned text matching no cataloged name, the default
text adapter is the dispatched adapter, and its success is returned as the
overall success. -/
theorem c3_routing_failure_degrades (env : Env) (req : ChatRequest) :
    (∀ e, env.routing = Except.error e →
      generateResponse env req =
        (askWithGemini env.geminiKey env.geminiFallback req, [Adapter.gemini]))
  ∧ (∀ raw, env.routing = Except.ok raw →
      jsTrim raw ≠ "gemini-2.0-flash" → jsTrim raw ≠ "deepseek-chat" →
      jsTrim raw ≠ "Fal" → jsTrim raw ≠ "LumaAI" →
      ((generateResponse env req).2.head? = some Adapter.gemini ∧
       ∀ r, askWithGemini env.geminiKey env.geminiMain req = Except.ok r →
         generateResponse env req = (Except.ok r, [Adapter.gemini]))) := by
  constructor
  · intro e he
    exact generateResponse_routing_error env req e he
  · intro raw hraw h0 h1 h2 h3
    have hd := dispatch_case_default env req (jsTrim raw) h0 h1 h2 h3
    constructor
    · cases hm : askWithGemini env.geminiKey env.geminiMain req with
      | ok r =>
        rw [generateResponse_dispatch_ok env req raw r [Adapter.gemini] hraw
          (by rw [hd, hm])]
        rfl
      | error e =>
        rw [generateResponse_dispatch_error env req raw e [Adapter.gemini] hraw
          (by rw [hd, hm])]
        rfl
    · intro r hm
      exact generateResponse_dispatch_ok env req raw r [Adapter.gemini] hraw
        (by rw [hd, hm])

/-- Claim C3 witness: a concrete run whose routing call raised a network
error; the request still succeeds with the fallback Gemini answer. -/
theorem c3_witness :
    generateResponse envRouteErrW { prompt := "hello" } =
      (askWithGemini envRouteErrW.geminiKey envRouteErrW.geminiFallback { prompt := "hello" },
       [Adapter.gemini]) :=
  (c3_routing_failure_degrades envRouteErrW { prompt := "hello" }).1 "network down" rfl

/-- Claim C4: whenever generateResponse returns a non-fatal result, its model
field equals the identity of the last adapter actually invoked; in
particular, after a fallback the result carries the default text adapter
identity Gemini 2.0 Flash, not the backend the router chose. -/
theorem c4_model_field_truthful (env : Env) (req : ChatRequest) (r : ChatResponse) (a : Adapter)
    (hok : (generateResponse env req).1 = Except.ok r)
    (hlast : (generateResponse env req).2.getLast? = some a) :
    r.model = adapterModelName a := by
  cases hr : env.routing with
  | error e =>
    have hrun := generateResponse_routing_error env req e hr
    rw [hrun] at hok hlast
    simp only [List.getLast?_singleton, Option.some.injEq] at hlast
    rw [← hlast]
    have hok2 : askWithGemini env.geminiKey env.geminiFallback req = Except.ok r := hok
    exact askWithGemini_ok_model _ _ _ _ hok2
  | ok raw =>
    by_cases h0 : jsTrim raw = "gemini-2.0-flash"
    · have hd := dispatch_case_gemini env req _ h0
      cases hm : askWithGemini env.geminiKey env.geminiMain req with
      | ok res =>
        have hrun := generateResponse_dispatch_ok env req raw res [Adapter.gemini] hr
          (by rw [hd, hm])
        rw [hrun] at hok hlast
        simp only [List.getLast?_singleton, Option.some.injEq] at hlast
        rw [← hlast]
        simp only [Except.ok.injEq] at hok
        rw [← hok]
        exact askWithGemini_ok_model _ _ _ _ hm
      | error e =>
        have hrun := generateResponse_dispatch_error env req raw e [Adapter.gemini] hr
          (by rw [hd, hm])
        rw [hrun] at hok hlast
        simp only [List.getLast?_concat, Option.some.injEq] at hlast
        rw [← hlast]
        have hok2 : askWithGemini env.geminiKey env.geminiFallback req = Except.ok r := hok
        exact askWithGemini_ok_model _ _ _ _ hok2
    · by_cases h1 : jsTrim raw = "deepseek-chat"
      · have hd := dispatch_case_deepseek env req _ h1
        cases hm : askWithDeepSeek env.deepseekKey env.deepseek req with
        | ok res =>
          have hrun := generateResponse_dispatch_ok env req raw res [Adapter.deepseek] hr
            (by rw [hd, hm])
          rw [hrun] at hok hlast
          simp only [List.getLast?_singleton, Option.some.injEq] at hlast
          rw [← hlast]
          simp only [Except.ok.injEq] at hok
          rw [← hok]
          exact askWithDeepSeek_ok_model _ _ _ _ hm
        | error e =>
          have hrun := generateResponse_dispatch_error env req raw e [Adapter.deepseek] hr
            (by rw [hd, hm])
          rw [hrun] at hok hlast
          simp only [List.getLast?_concat, Option.some.injEq] at hlast
          rw [← hlast]
          have hok2 : askWithGemini env.geminiKey env.geminiFallback req = Except.ok r := hok
          exact askWithGemini_ok_model _ _ _ _ hok2
      · by_cases h2 : jsTrim raw = "Fal"
        · have hd := dispatch_case_image env req _ h2
          have hrun := generateResponse_dispatch_ok env req raw _ [Adapter.image] hr hd
          rw [hrun] at hok hlast
          simp only [List.getLast?_singleton, Option.some.injEq] at hlast
          rw [← hlast]
          simp only [Except.ok.injEq] at hok
          rw [← hok]
          exact generateImage_model env.fal { prompt := req.prompt }
        · by_cases h3 : jsTrim raw = "LumaAI"
          · have hd := dispatch_case_video env req _ h3
            have hrun := generateResponse_dispatch_ok env req raw _ [Adapter.video] hr hd
            rw [hrun] at hok hlast
            simp only [List.getLast?_singleton, Option.some.injEq] at hlast
            rw [← hlast]
            simp only [Except.ok.injEq] at hok
            rw [← hok]
            exact generateVideo_model env.eachlabsKey env.video { prompt := req.prompt }
          · have hd := dispatch_case_default env req _ h0 h1 h2 h3
            cases hm : askWithGemini env.geminiKey env.geminiMain req with
            | ok res =>
              have hrun := generateResponse_dispatch_ok env req raw res [Adapter.gemini] hr
                (by rw [hd, hm])
              rw [hrun] at hok hlast
              simp only [List.getLast?_singleton, Option.some.injEq] at hlast
              rw [← hlast]
              simp only [Except.ok.injEq] at hok
              rw [← hok]
              exact askWithGemini_ok_model _ _ _ _ hm
            | error e =>
              have hrun := generateResponse_dispatch_error env req raw e [Adapter.gemini] hr
                (by rw [hd, hm])
              rw [hrun] at hok hlast
              simp only [List.getLast?_concat, Option.some.injEq] at hlast
              rw [← hlast]
              have hok2 : askWithGemini env.geminiKey env.geminiFallback req = Except.ok r := hok
              exact askWithGemini_ok_model _ _ _ _ hok2

/-- Claim C4 witness: a concrete fallback run (router chose deepseek-chat,
the adapter raised, the fallback produced the answer) whose result carries
the identity of the adapter that actually answered. -/
theorem c4_witness :
    ({ response := some "fallback answer", model := "Gemini 2.0 Flash" } : ChatResponse).model =
      adapterModelName Adapter.gemini :=
  c4_model_field_truthful envFallbackW { prompt := "fix my code" }
    { response := some "fallback answer", model := "Gemini 2.0 Flash" } Adapter.gemini rfl rfl

/-- Claim C5: when the image upstream call succeeds but carries zero images,
generateImage raises internally (the inner body errs with the
no-images message rather than succeeding emptily), and the result observable
at the adapter boundary is imageUrl none with model Stable Diffusion XL; no
error escapes the adapter. -/
theorem c5_zero_images (falUpstream : FalInput → Except String FalResult) (req : ImageRequest)
    (h : falUpstream (falInputOf req) = Except.ok { images := some [] }) :
    generateImageInner falUpstream req = Except.error "No images were generated"
  ∧ generateImage falUpstream req = { imageUrl := none, model := "Stable Diffusion XL" } := by
  have hinner : generateImageInner falUpstream req = Except.error "No images were generated" := by
    unfold generateImageInner
    rw [h]
  refine ⟨hinner, ?_⟩
  unfold generateImage
  rw [hinner]

/-- Claim C5 witness: a concrete upstream returning an empty image list. -/
theorem c5_witness :
    generateImageInner (fun _ => Except.ok { images := some [] }) { prompt := "a cat" } =
      Except.error "No images were generated"
  ∧ generateImage (fun _ => Except.ok { images := some [] }) { prompt := "a cat" } =
      { imageUrl := none, model := "Stable Diffusion XL" } :=
  c5_zero_images (fun _ => Except.ok { images := some [] }) { prompt := "a cat" } rfl

/-- Claim C6: with a usable credential, an upstream 401 makes generateVideo
report the dedicated authorization message internally, which no other
upstream status can produce; the boundary result is videoUrl none with model
eachlabs.  A success response whose JSON lacks the video URL field is also
reported as an internal error, not a success. -/
theorem c6_video_auth_and_missing_url (eachlabsKey : Option String)
    (videoUpstream : VideoBody → Except String VideoFetch) (req : VideoRequest)
    (hkey : jsOrS (eachlabsKey.map jsTrim) "" ≠ "") :
    (∀ resp, videoUpstream (videoBodyOf req) = Except.ok resp → resp.status = 401 →
      generateVideoInner eachlabsKey videoUpstream req = Except.error videoAuthMessage
    ∧ generateVideo eachlabsKey videoUpstream req = { videoUrl := none, model := "eachlabs" })
  ∧ (∀ status body, apiErrorMessage status body ≠ videoAuthMessage)
  ∧ (∀ resp result, videoUpstream (videoBodyOf req) = Except.ok resp → resp.status ≠ 401 →
      fetchOk resp.status = true → resp.json = Except.ok result → result.videoUrl = none →
      generateVideoInner eachlabsKey videoUpstream req = Except.error videoNoUrlMessage) := by
  refine ⟨?_, apiErrorMessage_ne_auth, ?_⟩
  · intro resp hresp h401
    have hinner : generateVideoInner eachlabsKey videoUpstream req =
        Except.error videoAuthMessage := by
      unfold generateVideoInner
      rw [if_neg hkey]
      simp only [hresp]
      rw [if_pos h401]
    refine ⟨hinner, ?_⟩
    unfold generateVideo
    rw [hinner]
  · intro resp result hresp h401 hokst hjson hurl
    unfold generateVideoInner
    rw [if_neg hkey]
    simp only [hresp]
    rw [if_neg h401, if_pos hokst]
    simp only [hjson, hurl]

/-- Claim C6 witness: a concrete 401 outcome from the video upstream with a
present credential; plus the concrete message distinctness at status 500. -/
theorem c6_witness :
    generateVideoInner (some "ek")
      (fun _ => Except.ok { status := 401, body := "", json := Except.error "not json" })
      { prompt := "a wave" } = Except.error videoAuthMessage
  ∧ generateVideo (some "ek")
      (fun _ => Except.ok { status := 401, body := "", json := Except.error "not json" })
      { prompt := "a wave" } = { videoUrl := none, model := "eachlabs" }
  ∧ apiErrorMessage 500 "boom" ≠ videoAuthMessage :=
  ⟨((c6_video_auth_and_missing_url (some "ek")
      (fun _ => Except.ok { status := 401, body := "", json := Except.error "not json" })
      { prompt := "a wave" } (by decide)).1
      { status := 401, body := "", json := Except.error "not json" } rfl rfl).1,
   ((c6_video_auth_and_missing_url (some "ek")
      (fun _ => Except.ok { status := 401, body := "", json := Except.error "not json" })
      { prompt := "a wave" } (by decide)).1
      { status := 401, body := "", json := Except.error "not json" } rfl rfl).2,
   (c6_video_auth_and_missing_url (some "ek")
      (fun _ => Except.ok { status := 401, body := "", json := Except.error "not json" })
      { prompt := "a wave" } (by decide)).2.1 500 "boom"⟩

/-- Claim C7 counterexample: with the Gemini credential absent, askWithGemini
does not detect the absence and does not fail with a configuration error; it
proceeds to the upstream call and returns whatever the upstream produced, here
a success.  This falsifies the claim that every adapter, in particular the
general text adapter, fails with a configuration error when its credential is
absent. -/
theorem c7_counterexample :
    askWithGemini none (Except.ok "hello") { prompt := "hi" } =
      Except.ok { response := some "hello", model := "Gemini 2.0 Flash" } := rfl

/-- Claim C7 amended: askWithDeepSeek detects an absent or empty credential
and fails with its missing-key error before consulting the upstream, and
generateVideo detects an absent or blank credential and reports its
missing-key error internally without consulting the upstream, returning the
null result at its boundary; askWithGemini, however, performs no credential
check and proceeds with the upstream call using the empty key. -/
theorem c7_credential_checks (req : ChatRequest) :
    (∀ upstream, askWithDeepSeek none upstream req =
      Except.error "DeepSeek API key is missing!")
  ∧ (∀ upstream, askWithDeepSeek (some "") upstream req =
      Except.error "DeepSeek API key is missing!")
  ∧ (∀ key upstream vreq, jsOrS (key.map jsTrim) "" = "" →
      generateVideoInner key upstream vreq = Except.error videoMissingKeyMessage
    ∧ generateVideo key upstream vreq = { videoUrl := none, model := "eachlabs" })
  ∧ (∀ out, askWithGemini none (Except.ok out) req =
      Except.ok { response := some out, model := "Gemini 2.0 Flash" }) := by
  refine ⟨fun upstream => rfl, fun upstream => rfl, ?_, fun out => rfl⟩
  intro key upstream vreq hkey
  have hinner : generateVideoInner key upstream vreq =
      Except.error videoMissingKeyMessage := by
    unfold generateVideoInner
    rw [if_pos hkey]
  refine ⟨hinner, ?_⟩
  unfold generateVideo
  rw [hinner]

/-- Claim C7 witness: concrete instances of the amended claim, with the video
credential set to a blank string. -/
theorem c7_witness :
    askWithDeepSeek none (Except.error "never called") { prompt := "hi" } =
      Except.error "DeepSeek API key is missing!"
  ∧ generateVideo (some "  ") (fun _ => Except.error "never called") { prompt := "a wave" } =
      { videoUrl := none, model := "eachlabs" } :=
  ⟨(c7_credential_checks { prompt := "hi" }).1 (Except.error "never called"),
   ((c7_credential_checks { prompt := "hi" }).2.2.1 (some "  ")
      (fun _ => Except.error "never called") { prompt := "a wave" } (by decide)).2⟩

/-- Claim C8: prompts routed to the image or video backend are wrapped as a
modality request holding only the text prompt (all optional fields absent),
so the adapter defaults apply to the upstream payload (width 1024, height
1024, the fixed default negative prompt, and duration 5 for video), and the
uniform response carries the adapter URL field as its payload. -/
theorem c8_modality_wrapping (env : Env) (req : ChatRequest) (raw : String)
    (h : env.routing = Except.ok raw) :
    (falInputOf { prompt := req.prompt } =
      { prompt := req.prompt,
        negative_prompt := "low quality, blurry, distorted, deformed",
        width := 1024, height := 1024 })
  ∧ (videoBodyOf { prompt := req.prompt } =
      { prompt := req.prompt,
        negative_prompt := "low quality, blurry, distorted",
        width := 1024, height := 1024, duration := 5 })
  ∧ (jsTrim raw = "Fal" →
      generateResponse env req =
        (Except.ok { response := (generateImage env.fal { prompt := req.prompt }).imageUrl,
                     model := (generateImage env.fal { prompt := req.prompt }).model },
         [Adapter.image]))
  ∧ (jsTrim raw = "LumaAI" →
      generateResponse env req =
        (Except.ok
           { response := (generateVideo env.eachlabsKey env.video { prompt := req.prompt }).videoUrl,
             model := (generateVideo env.eachlabsKey env.video { prompt := req.prompt }).model },
         [Adapter.video])) := by
  refine ⟨rfl, rfl, ?_, ?_⟩
  · intro h2
    exact generateResponse_dispatch_ok env req raw _ [Adapter.image] h
      (dispatch_case_image env req _ h2)
  · intro h3
    exact generateResponse_dispatch_ok env req raw _ [Adapter.video] h
      (dispatch_case_video env req _ h3)

/-- Claim C8 witness: the concrete image-routed run, with the defaulted
upstream payload spelled out. -/
theorem c8_witness :
    falInputOf { prompt := "draw a cat" } =
      { prompt := "draw a cat",
        negative_prompt := "low quality, blurry, distorted, deformed",
        width := 1024, height := 1024 }
  ∧ generateResponse envImageW { prompt := "draw a cat" } =
      (Except.ok { response := some "imgurl", model := "Stable Diffusion XL" },
       [Adapter.image]) :=
  ⟨(c8_modality_wrapping envImageW { prompt := "draw a cat" } " Fal " rfl).1,
   (c8_modality_wrapping envImageW { prompt := "draw a cat" } " Fal " rfl).2.2.1 rfl⟩

/-- Claim C9 counterexample: on a valid body the chat route does not reply
with the flat shape of fields response and model; the reply body is an object
whose single field message wraps the core result.  At a concrete fully
successful run, the top-level fields response and model are absent and the
field message holds the serialized core result. -/
theorem c9_counterexample :
    (ChatRoute.POST envChatW (Except.ok (Json.obj [("prompt", Json.str "hi")]))).2.getField
        "response" = none
  ∧ (ChatRoute.POST envChatW (Except.ok (Json.obj [("prompt", Json.str "hi")]))).2.getField
        "model" = none
  ∧ (ChatRoute.POST envChatW (Except.ok (Json.obj [("prompt", Json.str "hi")]))).2.getField
        "message" =
      some (chatResponseJson { response := some "gresp", model := "Gemini 2.0 Flash" })
  ∧ (ChatRoute.POST envChatW (Except.ok (Json.obj [("prompt", Json.str "hi")]))).1 = 200 :=
  ⟨rfl, rfl, rfl, rfl⟩

/-- Claim C9 amended: a valid body with a string prompt yields a 200 reply
whose body wraps the core result of shape response and model under the
message key; validation failure yields 400 with message Invalid Inputs!!;
a fatal core error, or an unreadable request body, yields 500 with message
Internal server error. -/
theorem c9_route_contract (env : Env) (j : Json) (p : String) (r : ChatResponse) :
    (safeParseChat j = some p → (generateResponse env { prompt := p }).1 = Except.ok r →
      ChatRoute.POST env (Except.ok j) =
        (200, Json.obj [("message", chatResponseJson r)]))
  ∧ (safeParseChat j = none →
      ChatRoute.POST env (Except.ok j) =
        (400, Json.obj [("message", Json.str "Invalid Inputs!!")]))
  ∧ (∀ e, safeParseChat j = some p → (generateResponse env { prompt := p }).1 = Except.error e →
      ChatRoute.POST env (Except.ok j) =
        (500, Json.obj [("message", Json.str "Internal server error")]))
  ∧ (∀ e, ChatRoute.POST env (Except.error e) =
      (500, Json.obj [("message", Json.str "Internal server error")])) := by
  refine ⟨?_, ?_, ?_, fun e => rfl⟩
  · intro hp hok
    unfold ChatRoute.POST
    simp only [hp, hok]
  · intro hp
    unfold ChatRoute.POST
    simp only [hp]
  · intro e hp herr
    unfold ChatRoute.POST
    simp only [hp, herr]

/-- Claim C9 witness: the amended contract instantiated on the concrete
successful run and on a concrete invalid body. -/
theorem c9_witness :
    ChatRoute.POST envChatW (Except.ok (Json.obj [("prompt", Json.str "hi")])) =
      (200, Json.obj [("message",
        chatResponseJson { response := some "gresp", model := "Gemini 2.0 Flash" })])
  ∧ ChatRoute.POST envChatW (Except.ok (Json.str "hi")) =
      (400, Json.obj [("message", Json.str "Invalid Inputs!!")]) :=
  ⟨(c9_route_contract envChatW (Json.obj [("prompt", Json.str "hi")]) "hi"
      { response := some "gresp", model := "Gemini 2.0 Flash" }).1 rfl rfl,
   (c9_route_contract envChatW (Json.str "hi") "hi"
      { response := some "gresp", model := "Gemini 2.0 Flash" }).2.1 rfl⟩

/-- Claim C10: the image and video adapters are total at their boundaries:
whatever the upstream outcome, they return a result stamped with their own
model identity, and any internal error becomes the null-payload result;
consequently, a prompt routed to the image or video backend never takes the
dispatcher fallback, so the trace is exactly the one media adapter and the
overall result is a success. -/
theorem c10_media_adapters_total (falUpstream : FalInput → Except String FalResult)
    (videoUpstream : VideoBody → Except String VideoFetch) (key : Option String)
    (ireq : ImageRequest) (vreq : VideoRequest)
    (env : Env) (req : ChatRequest) (raw : String)
    (h : env.routing = Except.ok raw) :
    ((generateImage falUpstream ireq).model = "Stable Diffusion XL")
  ∧ (∀ e, generateImageInner falUpstream ireq = Except.error e →
      generateImage falUpstream ireq = { imageUrl := none, model := "Stable Diffusion XL" })
  ∧ ((generateVideo key videoUpstream vreq).model = "eachlabs")
  ∧ (∀ e, generateVideoInner key videoUpstream vreq = Except.error e →
      generateVideo key videoUpstream vreq = { videoUrl := none, model := "eachlabs" })
  ∧ (jsTrim raw = "Fal" → (generateResponse env req).2 = [Adapter.image] ∧
      ∃ r, (generateResponse env req).1 = Except.ok r)
  ∧ (jsTrim raw = "LumaAI" → (generateResponse env req).2 = [Adapter.video] ∧
      ∃ r, (generateResponse env req).1 = Except.ok r) := by
  refine ⟨generateImage_model falUpstream ireq, ?_,
    generateVideo_model key videoUpstream vreq, ?_, ?_, ?_⟩
  · intro e he
    unfold generateImage
    rw [he]
  · intro e he
    unfold generateVideo
    rw [he]
  · intro h2
    have hrun := generateResponse_dispatch_ok env req raw _ [Adapter.image] h
      (dispatch_case_image env req _ h2)
    rw [hrun]
    exact ⟨rfl, _, rfl⟩
  · intro h3
    have hrun := generateResponse_dispatch_ok env req raw _ [Adapter.video] h
      (dispatch_case_video env req _ h3)
    rw [hrun]
    exact ⟨rfl, _, rfl⟩

/-- Claim C10 witness: an image-routed concrete run whose trace is exactly
the image adapter, with a successful overall result; plus a concrete failing
upstream converted to the null result. -/
theorem c10_witness :
    ((generateResponse envImageW { prompt := "draw a cat" }).2 = [Adapter.image]
  ∧ ∃ r, (generateResponse envImageW { prompt := "draw a cat" }).1 = Except.ok r)
  ∧ generateImage (fun _ => Except.error "network down") { prompt := "draw a cat" } =
      { imageUrl := none, model := "Stable Diffusion XL" } :=
  ⟨(c10_media_adapters_total envImageW.fal envImageW.video envImageW.eachlabsKey
      { prompt := "draw a cat" } { prompt := "draw a cat" }
      envImageW { prompt := "draw a cat" } " Fal " rfl).2.2.2.2.1 rfl,
   (c10_media_adapters_total (fun _ => Except.error "network down") envImageW.video
      envImageW.eachlabsKey { prompt := "draw a cat" } { prompt := "draw a cat" }
      envImageW { prompt := "draw a cat" } " Fal " rfl).2.1 "network down" rfl⟩
